import Mathlib

/-!
Shallow embedding of the admin-crud-api controller (src/src/app.controller.ts)
and of the repository layer it calls (UserService / PostService, whose sources
are not part of the provided tree and are therefore modelled from the spec's
repository contract).  Handlers are modelled as pure functions from the
repository state to a result, the successor state, and the list of repository
calls they issue (the trace), so that read-before-write properties are
statable.
-/

namespace AdminCrud

/-- The `User` record of the data model (spec section 3): id, unique email,
name, and the stored password hash. -/
structure User where
  id : Nat
  email : String
  name : String
  password : String
deriving DecidableEq, Repr

/-- The `Post` record of the data model (spec section 3). -/
structure Post where
  id : Nat
  title : String
  content : String
  published : Bool
  authorId : Nat
deriving DecidableEq, Repr

/-- An error thrown by the repository layer: either a
`PrismaClientKnownRequestError` carrying its code (such as P2002 for a unique
constraint violation or P2025 for a missing connected record), or any other
error. -/
inductive RepoError where
  | known (code : String) : RepoError
  | unknown : RepoError
deriving DecidableEq, Repr

/-- The observable outcome of a handler: a resolved value, a thrown
`HttpException message status`, a promise that resolved to `undefined`
because an exception was swallowed, or an uncaught repository error
propagating out of the handler. -/
inductive HandlerResult (α : Type) where
  | ok (value : α) : HandlerResult α
  | httpError (message : String) (status : Nat) : HandlerResult α
  | resolvedUndefined : HandlerResult α
  | thrown (e : RepoError) : HandlerResult α
deriving DecidableEq, Repr

/-- True exactly on an `HttpException` with a 4xx status (client-facing
error). -/
def HandlerResult.isClientError : HandlerResult α → Bool
  | .httpError _ status => decide (400 ≤ status) && decide (status < 500)
  | _ => false

/-- True exactly on an `HttpException` with a 5xx status (server error). -/
def HandlerResult.isServerError : HandlerResult α → Bool
  | .httpError _ status => decide (500 ≤ status)
  | _ => false

/-- A repository call issued by a handler, recorded in order. -/
inductive RepoEvent where
  | readUserByEmail (email : String) : RepoEvent
  | createUserWrite (email : String) : RepoEvent
  | readPostById (id : Nat) : RepoEvent
  | listPosts : RepoEvent
  | createPostWrite (authorEmail : String) : RepoEvent
  | updatePostWrite (id : Nat) : RepoEvent
  | deletePostWrite (id : Nat) : RepoEvent
deriving DecidableEq, Repr

/-- Whether a repository event mutates persisted state. -/
def RepoEvent.isWrite : RepoEvent → Bool
  | .createUserWrite _ => true
  | .createPostWrite _ => true
  | .updatePostWrite _ => true
  | .deletePostWrite _ => true
  | _ => false

/-- A handler run: its observable result, the repository state it leaves
behind, and the trace of repository calls it issued. -/
structure HandlerOut (σ : Type) (α : Type) where
  result : HandlerResult α
  state : σ
  trace : List RepoEvent
deriving DecidableEq, Repr

/-- True when `hay` contains `sub` as a substring, the `contains` matching of
the repository listing. -/
def strContains (hay sub : String) : Bool :=
  decide (sub.data <:+: hay.data)

/-- True exactly when the error is the known Prisma error of code P2025 (the
one code `createPostDraft`'s catch block recognises). -/
def RepoError.isP2025 : RepoError → Bool
  | .known code => code == "P2025"
  | .unknown => false

namespace UserService

/-- Modelled from the spec: `UserService.findUser` (src/user.service.ts is not
under src/) — point lookup of a user by its unique, case-sensitive email. -/
def findUser (users : List User) (email : String) : Option User :=
  users.find? (fun u => u.email == email)

/-- Modelled from the spec: `UserService.createUser` (src/user.service.ts is
not under src/) — inserts a user; the repository enforces email uniqueness and
signals a violation as the known Prisma error code P2002, with no partial
write. -/
def createUser (users : List User) (email name password : String)
    (freshId : Nat) : Except RepoError (User × List User) :=
  match findUser users email with
  | some _ => .error (.known "P2002")
  | none =>
      let u : User := ⟨freshId, email, name, password⟩
      .ok (u, users ++ [u])

end UserService

namespace PostService

/-- Modelled from the spec: `PostService.post` (src/post.service.ts is not
under src/) — point lookup of a post by its unique id. -/
def post (posts : List Post) (id : Nat) : Option Post :=
  posts.find? (fun p => p.id == id)

/-- The `data` argument of `PostService.updatePost`: a partial update where an
absent field is left unchanged (Prisma ignores `undefined` fields). -/
structure PostUpdateData where
  title : Option String
  content : Option String
  published : Option Bool
deriving DecidableEq, Repr

/-- Modelled from the spec: `PostService.updatePost` (src/post.service.ts is
not under src/) — partial update of the post with the given id, applying only
the supplied fields; when no post has that id the write fails with the known
Prisma error code P2025. -/
def updatePost (posts : List Post) (id : Nat) (data : PostUpdateData) :
    Except RepoError (Post × List Post) :=
  match post posts id with
  | none => .error (.known "P2025")
  | some p =>
      let p2 : Post :=
        ⟨p.id, data.title.getD p.title, data.content.getD p.content,
         data.published.getD p.published, p.authorId⟩
      .ok (p2, posts.map (fun q => if q.id == id then p2 else q))

/-- Modelled from the spec: `PostService.deletePost` (src/post.service.ts is
not under src/) — removes the post with the given id permanently; when no post
has that id the write fails with the known Prisma error code P2025. -/
def deletePost (posts : List Post) (id : Nat) : Except RepoError (List Post) :=
  match post posts id with
  | none => .error (.known "P2025")
  | some _ => .ok (posts.filter (fun p => !(p.id == id)))

/-- Modelled from the spec: `PostService.createPost` (src/post.service.ts is
not under src/) — creates a post connecting the author record by its unique
email; when no user has that email the connect fails with the known Prisma
error code P2025 and nothing is written.  A new post starts with
`published := false` (the schema default). -/
def createPost (users : List User) (posts : List Post)
    (title content authorEmail : String) (freshId : Nat) :
    Except RepoError (Post × List Post) :=
  match UserService.findUser users authorEmail with
  | none => .error (.known "P2025")
  | some author =>
      let p : Post := ⟨freshId, title, content, false, author.id⟩
      .ok (p, posts ++ [p])

/-- Modelled from the spec: `PostService.posts` (src/post.service.ts is not
under src/) — filtered listing with offset/limit pagination, in the stable
stored order. -/
def posts (db : List Post) (skip : Option Nat) (take : Option Nat)
    (filter : Post → Bool) : List Post :=
  let filtered := db.filter filter
  let afterSkip :=
    match skip with
    | some n => filtered.drop n
    | none => filtered
  match take with
  | some n => afterSkip.take n
  | none => afterSkip

end PostService

namespace AppController

/-- The non-sensitive user fields returned by `signupUser`
(src/src/app.controller.ts lines 100-104): email, id, name — never the
password hash. -/
structure PublicUser where
  email : String
  id : Nat
  name : String
deriving DecidableEq, Repr

/-- The catch block of `signupUser` (src/src/app.controller.ts lines
106-118): a known Prisma error with code P2002 becomes the duplicate-email
`HttpException` with status 404; an error that is not a known Prisma error is
logged and becomes the opaque `HttpException` with status 500; a known Prisma
error with any other code falls through both branches, so nothing is thrown
and the handler resolves to `undefined`. -/
def signupCatch (error : RepoError) : HandlerResult (Nat × PublicUser) :=
  match error with
  | .known code =>
      if code = "P2002" then
        .httpError "Email or contact number already exist, please provide another one" 404
      else
        .resolvedUndefined
  | .unknown => .httpError "Something went wrong" 500

/-- The body of `signupUser` (src/src/app.controller.ts lines 85-119) with the
repository write outcome passed in explicitly, so that arbitrary repository
failures can be analysed: a successful create resolves with status 200 and the
public fields, a failed one goes through the catch block. -/
def signupUserWith (createResult : Except RepoError User) :
    HandlerResult (Nat × PublicUser) :=
  match createResult with
  | .ok user => .ok (200, ⟨user.email, user.id, user.name⟩)
  | .error e => signupCatch e

/-- `signupUser` (src/src/app.controller.ts lines 85-119): hashes the password
(the bcrypt call is modelled by the `hashFn` parameter), attempts the
repository create, and shapes the response; on a repository error the catch
block decides the outcome and the state is unchanged. -/
def signupUser (hashFn : String → String) (users : List User)
    (name email password : String) (freshId : Nat) :
    HandlerOut (List User) (Nat × PublicUser) :=
  match UserService.createUser users email name (hashFn password) freshId with
  | .ok (u, users2) => ⟨signupUserWith (.ok u), users2, [.createUserWrite email]⟩
  | .error e => ⟨signupUserWith (.error e), users, [.createUserWrite email]⟩

/-- `login` (src/src/app.controller.ts lines 121-143): looks the user up by
email; when no user exists or the bcrypt compare (the `verify` parameter)
fails, throws `HttpException` with message "Invalid email or password" and
status 401; otherwise resolves with a signed token (the `sign` parameter
models `jwtService.signAsync` over the claims sub/email/name). -/
def login (verify : String → String → Bool)
    (sign : Nat → String → String → String) (users : List User)
    (email password : String) : HandlerOut (List User) (Nat × String) :=
  match UserService.findUser users email with
  | none => ⟨.httpError "Invalid email or password" 401, users, [.readUserByEmail email]⟩
  | some user =>
      if verify password user.password then
        ⟨.ok (200, sign user.id user.email user.name), users, [.readUserByEmail email]⟩
      else
        ⟨.httpError "Invalid email or password" 401, users, [.readUserByEmail email]⟩

/-- The catch block of `createPostDraft` (src/src/app.controller.ts lines
176-182): a known Prisma error with code P2025 becomes the "Author not found"
`HttpException` with status 404; every other error (unknown, or known with a
different code) falls through without being rethrown, so the handler resolves
to `undefined`. -/
def createDraftCatch (error : RepoError) : HandlerResult (Nat × Post) :=
  match error with
  | .known code =>
      if code = "P2025" then .httpError "Author not found" 404
      else .resolvedUndefined
  | .unknown => .resolvedUndefined

/-- The body of `createPostDraft` (src/src/app.controller.ts lines 159-183)
with the repository write outcome passed in explicitly: a successful create
resolves with status 200 and the post, a failed one goes through the catch
block and leaves the state unchanged. -/
def createPostDraftWith (repoResult : Except RepoError (Post × List Post))
    (posts0 : List Post) : HandlerResult (Nat × Post) × List Post :=
  match repoResult with
  | .ok (p, posts2) => (.ok (200, p), posts2)
  | .error e => (createDraftCatch e, posts0)

/-- `createPostDraft` (src/src/app.controller.ts lines 159-183): issues the
repository create (connecting the author by email) directly — there is no
prior read — and maps its outcome through the catch block. -/
def createPostDraft (users : List User) (posts0 : List Post)
    (title content authorEmail : String) (freshId : Nat) :
    HandlerOut (List Post) (Nat × Post) :=
  let r := createPostDraftWith
    (PostService.createPost users posts0 title content authorEmail freshId) posts0
  ⟨r.1, r.2, [.createPostWrite authorEmail]⟩

/-- `publishPost` (src/src/app.controller.ts lines 185-198): reads the post by
id; when absent throws `HttpException` "Post not found" 404 without writing;
otherwise issues the repository update setting `published := true` and
resolves with the updated post. -/
def publishPost (posts0 : List Post) (id : Nat) : HandlerOut (List Post) Post :=
  match PostService.post posts0 id with
  | none => ⟨.httpError "Post not found" 404, posts0, [.readPostById id]⟩
  | some thePost =>
      match PostService.updatePost posts0 thePost.id ⟨none, none, some true⟩ with
      | .ok (p2, posts2) =>
          ⟨.ok p2, posts2, [.readPostById id, .updatePostWrite thePost.id]⟩
      | .error e =>
          ⟨.thrown e, posts0, [.readPostById id, .updatePostWrite thePost.id]⟩

/-- `getPostById` (src/src/app.controller.ts lines 200-215): reads the post by
id; when absent throws `HttpException` "Post not found" 404, otherwise
resolves with status 200 and the post. -/
def getPostById (posts0 : List Post) (id : Nat) :
    HandlerOut (List Post) (Nat × Post) :=
  match PostService.post posts0 id with
  | none => ⟨.httpError "Post not found" 404, posts0, [.readPostById id]⟩
  | some p => ⟨.ok (200, p), posts0, [.readPostById id]⟩

/-- The query parameters of `getPosts` (src/src/app.controller.ts lines
52-56): validated number strings for skip/take (which, being nonempty strings,
are truthy whenever present) and an optional search string. -/
structure PostQueryParams where
  skip : Option Nat
  take : Option Nat
  searchString : Option String
deriving DecidableEq, Repr

/-- The `where` clause built by `getPosts` (src/src/app.controller.ts lines
223-234): `query.searchString ? { OR: [content contains, title contains] } : {}`.
An absent search string and the empty string are both falsy in JavaScript, so
both leave the listing unfiltered. -/
def searchFilter (q : PostQueryParams) : Post → Bool :=
  match q.searchString with
  | some s =>
      if s = "" then fun _ => true
      else fun p => strContains p.content s || strContains p.title s
  | none => fun _ => true

/-- `getPosts` (src/src/app.controller.ts lines 217-236): forwards skip/take
when present and the search filter to the repository listing. -/
def getPosts (posts0 : List Post) (q : PostQueryParams) :
    HandlerOut (List Post) (List Post) :=
  ⟨.ok (PostService.posts posts0 q.skip q.take (searchFilter q)), posts0, [.listPosts]⟩

/-- The body of controller `updatePost` (src/src/app.controller.ts lines
66-69): optional title and content only. -/
structure UpdatePostBody where
  title : Option String
  content : Option String
deriving DecidableEq, Repr

/-- Controller `updatePost` (src/src/app.controller.ts lines 238-257): reads
the post by id; when absent throws `HttpException` "Post not found" 404
without writing; otherwise issues the repository partial update with exactly
the supplied body fields and resolves with status 200 and the updated post. -/
def updatePost (posts0 : List Post) (id : Nat) (body : UpdatePostBody) :
    HandlerOut (List Post) (Nat × Post) :=
  match PostService.post posts0 id with
  | none => ⟨.httpError "Post not found" 404, posts0, [.readPostById id]⟩
  | some thePost =>
      match PostService.updatePost posts0 thePost.id ⟨body.title, body.content, none⟩ with
      | .ok (p2, posts2) =>
          ⟨.ok (200, p2), posts2, [.readPostById id, .updatePostWrite thePost.id]⟩
      | .error e =>
          ⟨.thrown e, posts0, [.readPostById id, .updatePostWrite thePost.id]⟩

/-- Controller `deletePost` (src/src/app.controller.ts lines 259-276): reads
the post by id; when absent throws `HttpException` "Post not found" 404
without writing; otherwise issues the repository delete and resolves with
status 200 and a confirmation message. -/
def deletePost (posts0 : List Post) (id : Nat) :
    HandlerOut (List Post) (Nat × String) :=
  match PostService.post posts0 id with
  | none => ⟨.httpError "Post not found" 404, posts0, [.readPostById id]⟩
  | some _ =>
      match PostService.deletePost posts0 id with
      | .ok posts2 =>
          ⟨.ok (200, "Successfully deleted post with id " ++ toString id), posts2,
           [.readPostById id, .deletePostWrite id]⟩
      | .error e =>
          ⟨.thrown e, posts0, [.readPostById id, .deletePostWrite id]⟩

end AppController

/-- Stated from the spec's words, for comparison with the source-derived
handlers: the search predicate of the spec sentence for listing — a post
matches when its title OR content contains the substring. -/
def claimMatches (s : String) (p : Post) : Bool :=
  strContains p.title s || strContains p.content s

/-- Stated from the spec's words, for comparison with the source-derived
handlers: standard offset/limit pagination — drop `skip` elements when
supplied, then keep at most `take` elements when supplied. -/
def paginate (skip : Option Nat) (take : Option Nat) (l : List Post) :
    List Post :=
  let afterSkip :=
    match skip with
    | some n => l.drop n
    | none => l
  match take with
  | some n => afterSkip.take n
  | none => afterSkip

/-- Stated from the spec's words, for comparison with the source-derived
handlers: every mutating post operation performs a read-before-write
existence check, so on an absent target it returns its not-found error
having issued no repository write at all. -/
def specReadBeforeWriteAll : Prop :=
  (∀ (users : List User) (posts0 : List Post)
      (title content authorEmail : String) (freshId : Nat),
      UserService.findUser users authorEmail = none →
        (AppController.createPostDraft users posts0 title content authorEmail
          freshId).trace.all (fun e => !e.isWrite) = true) ∧
  (∀ (posts0 : List Post) (id : Nat), PostService.post posts0 id = none →
      (AppController.publishPost posts0 id).trace.all
        (fun e => !e.isWrite) = true) ∧
  (∀ (posts0 : List Post) (id : Nat) (body : AppController.UpdatePostBody),
      PostService.post posts0 id = none →
        (AppController.updatePost posts0 id body).trace.all
          (fun e => !e.isWrite) = true) ∧
  (∀ (posts0 : List Post) (id : Nat), PostService.post posts0 id = none →
      (AppController.deletePost posts0 id).trace.all
        (fun e => !e.isWrite) = true)

/-! Helper lemmas about the modelled repository lookups. -/

lemma post_some_id (posts0 : List Post) (id : Nat) (p : Post)
    (h : PostService.post posts0 id = some p) : p.id = id := by
  have h2 := List.find?_some h
  simpa using h2

lemma post_map_replace (id : Nat) (p2 : Post) (h2 : p2.id = id)
    (posts0 : List Post) (p : Post)
    (hp : PostService.post posts0 id = some p) :
    PostService.post (posts0.map (fun q => if q.id == id then p2 else q)) id =
      some p2 := by
  induction posts0 with
  | nil => simp [PostService.post] at hp
  | cons q rest ih =>
      by_cases hq : (q.id == id) = true
      · simp only [List.map_cons, if_pos hq]
        unfold PostService.post
        exact List.find?_cons_of_pos _ (by simp [h2])
      · have hp2 : PostService.post rest id = some p := by
          have hstep : List.find? (fun r : Post => r.id == id) (q :: rest) =
              List.find? (fun r : Post => r.id == id) rest :=
            List.find?_cons_of_neg _ hq
          unfold PostService.post at hp ⊢
          rw [hstep] at hp
          exact hp
        have hstep2 : List.find? (fun r : Post => r.id == id)
            (q :: rest.map (fun r => if r.id == id then p2 else r)) =
            List.find? (fun r : Post => r.id == id)
              (rest.map (fun r => if r.id == id then p2 else r)) :=
          List.find?_cons_of_neg _ hq
        unfold PostService.post
        simp only [List.map_cons, if_neg hq]
        rw [hstep2]
        exact ih hp2

lemma post_filter_eq_none (posts0 : List Post) (id : Nat) :
    PostService.post (posts0.filter (fun q => !(q.id == id))) id = none := by
  unfold PostService.post
  rw [List.find?_eq_none]
  intro x hx
  have hmem := List.mem_filter.mp hx
  simp at hmem ⊢
  exact hmem.2

lemma publishPost_of_some (posts0 : List Post) (id : Nat) (p : Post)
    (hp : PostService.post posts0 id = some p) :
    AppController.publishPost posts0 id =
      ⟨.ok ⟨p.id, p.title, p.content, true, p.authorId⟩,
       posts0.map (fun q =>
         if q.id == id then
           (⟨p.id, p.title, p.content, true, p.authorId⟩ : Post)
         else q),
       [.readPostById id, .updatePostWrite p.id]⟩ := by
  have hid : p.id = id := post_some_id posts0 id p hp
  simp [AppController.publishPost, PostService.updatePost, hp, hid]

lemma updatePost_of_some (posts0 : List Post) (id : Nat)
    (body : AppController.UpdatePostBody) (p : Post)
    (hp : PostService.post posts0 id = some p) :
    AppController.updatePost posts0 id body =
      ⟨.ok (200, ⟨p.id, body.title.getD p.title, body.content.getD p.content,
          p.published, p.authorId⟩),
       posts0.map (fun q =>
         if q.id == id then
           (⟨p.id, body.title.getD p.title, body.content.getD p.content,
             p.published, p.authorId⟩ : Post)
         else q),
       [.readPostById id, .updatePostWrite p.id]⟩ := by
  have hid : p.id = id := post_some_id posts0 id p hp
  simp [AppController.updatePost, PostService.updatePost, hp, hid]

lemma deletePost_of_some (posts0 : List Post) (id : Nat) (p : Post)
    (hp : PostService.post posts0 id = some p) :
    AppController.deletePost posts0 id =
      ⟨.ok (200, "Successfully deleted post with id " ++ toString id),
       posts0.filter (fun q => !(q.id == id)),
       [.readPostById id, .deletePostWrite id]⟩ := by
  simp [AppController.deletePost, PostService.deletePost, hp]

/-! Claim theorems. -/

/-- C1 counterexample: the spec's read-before-write sentence is false on the
code — `createPostDraft` with an author email matching no user issues the
repository create write (and no read at all); the not-found outcome comes from
catching the write-failure signal. -/
theorem createDraft_violates_readBeforeWrite : ¬ specReadBeforeWriteAll := by
  intro h
  have h1 := h.1 [] [] "T" "C" "a@x.com" 1 (by decide)
  exact absurd h1 (by decide)

/-- C1 (amended): `publishPost`, `updatePost`, and `deletePost` perform a
read-before-write existence check — on an absent id they return the
PostNotFound error (404) with state unchanged and a trace containing only the
read; `createPostDraft` instead issues the create write unconditionally (its
trace is exactly the write attempt) and maps the repository's P2025
write-failure signal to the AuthorNotFound error (404) with state
unchanged. -/
theorem mutatingOps_readBeforeWrite_amended (users : List User)
    (posts0 : List Post) (title content authorEmail : String) (freshId : Nat)
    (id : Nat) (body : AppController.UpdatePostBody) :
    (PostService.post posts0 id = none →
      (AppController.publishPost posts0 id).result =
        .httpError "Post not found" 404 ∧
      (AppController.publishPost posts0 id).state = posts0 ∧
      (AppController.publishPost posts0 id).trace = [.readPostById id] ∧
      (AppController.updatePost posts0 id body).result =
        .httpError "Post not found" 404 ∧
      (AppController.updatePost posts0 id body).state = posts0 ∧
      (AppController.updatePost posts0 id body).trace = [.readPostById id] ∧
      (AppController.deletePost posts0 id).result =
        .httpError "Post not found" 404 ∧
      (AppController.deletePost posts0 id).state = posts0 ∧
      (AppController.deletePost posts0 id).trace = [.readPostById id]) ∧
    (UserService.findUser users authorEmail = none →
      (AppController.createPostDraft users posts0 title content authorEmail
          freshId).result = .httpError "Author not found" 404 ∧
      (AppController.createPostDraft users posts0 title content authorEmail
          freshId).state = posts0 ∧
      (AppController.createPostDraft users posts0 title content authorEmail
          freshId).trace = [.createPostWrite authorEmail]) := by
  constructor
  · intro h
    simp [AppController.publishPost, AppController.updatePost,
      AppController.deletePost, h]
  · intro h
    simp [AppController.createPostDraft, AppController.createPostDraftWith,
      AppController.createDraftCatch, PostService.createPost, h]

/-- Witness for the amended C1 theorem at a concrete absent id. -/
theorem mutatingOps_readBeforeWrite_amended_witness :
    PostService.post ([] : List Post) 1 = none ∧
    (AppController.publishPost [] 1).result = .httpError "Post not found" 404 := by
  refine ⟨by decide, ?_⟩
  exact ((mutatingOps_readBeforeWrite_amended [] [] "T" "C" "a@x.com" 1 1
    ⟨none, none⟩).1 (by decide)).1

/-- C2: when the repository signals the email-uniqueness violation (it does so
exactly when a user with the email already exists), `signupUser` throws the
duplicate-email `HttpException` — a 4xx client-facing outcome, not a 5xx
server error — and the user table is unchanged (no partial record). -/
theorem signup_duplicate_email_conflict (hashFn : String → String)
    (users : List User) (name email password : String) (freshId : Nat)
    (u : User) (hu : UserService.findUser users email = some u) :
    (AppController.signupUser hashFn users name email password freshId).result =
      .httpError "Email or contact number already exist, please provide another one" 404 ∧
    (AppController.signupUser hashFn users name email password freshId).result.isClientError = true ∧
    (AppController.signupUser hashFn users name email password freshId).result.isServerError = false ∧
    (AppController.signupUser hashFn users name email password freshId).state = users := by
  simp [AppController.signupUser, UserService.createUser, hu,
    AppController.signupUserWith, AppController.signupCatch,
    HandlerResult.isClientError, HandlerResult.isServerError]

/-- Witness for C2: registering an email that already exists. -/
theorem signup_duplicate_email_conflict_witness :
    UserService.findUser [⟨1, "a@x.com", "A", "h"⟩] "a@x.com" =
      some ⟨1, "a@x.com", "A", "h"⟩ ∧
    (AppController.signupUser id [⟨1, "a@x.com", "A", "h"⟩] "B" "a@x.com" "pw"
      2).state = [⟨1, "a@x.com", "A", "h"⟩] := by
  refine ⟨by decide, ?_⟩
  exact (signup_duplicate_email_conflict id [⟨1, "a@x.com", "A", "h"⟩] "B"
    "a@x.com" "pw" 2 ⟨1, "a@x.com", "A", "h"⟩ (by decide)).2.2.2

/-- C3 counterexample: it is false that every non-uniqueness repository error
makes `signupUser` fail with the opaque 500 — a known Prisma error with code
P2003 is swallowed and the handler resolves to `undefined`. -/
theorem signup_internalFailure_claim_false :
    ¬ (∀ e : RepoError, e ≠ .known "P2002" →
        AppController.signupUserWith (.error e) =
          .httpError "Something went wrong" 500) := by
  intro h
  have h2 := h (.known "P2003") (by decide)
  exact absurd h2 (by decide)

/-- C3 (amended): a repository error that is not a known Prisma error makes
`signupUser` fail with the opaque InternalFailure (500); but a known Prisma
error with any code other than P2002 is swallowed — the handler resolves to
`undefined`, completing silently with neither an error nor a payload. -/
theorem signup_error_taxonomy_amended (code : String)
    (hcode : code ≠ "P2002") :
    AppController.signupUserWith (.error .unknown) =
      .httpError "Something went wrong" 500 ∧
    AppController.signupUserWith (.error (.known code)) = .resolvedUndefined := by
  refine ⟨rfl, ?_⟩
  simp [AppController.signupUserWith, AppController.signupCatch, hcode]

/-- Witness for the amended C3 theorem at the concrete code P2003. -/
theorem signup_error_taxonomy_amended_witness :
    "P2003" ≠ "P2002" ∧
    AppController.signupUserWith (.error (.known "P2003")) =
      .resolvedUndefined := by
  refine ⟨by decide, ?_⟩
  exact (signup_error_taxonomy_amended "P2003" (by decide)).2

/-- C4: the login failure for a nonexistent email and the login failure for an
existing user with a failing password verification produce the identical
observable outcome — the same `HttpException` with message
"Invalid email or password" and status 401 — and neither run mutates the user
table. -/
theorem login_invalid_credentials_uniform (verify : String → String → Bool)
    (sign : Nat → String → String → String) (users : List User)
    (email1 password1 email2 password2 : String) (u : User)
    (h1 : UserService.findUser users email1 = none)
    (h2 : UserService.findUser users email2 = some u)
    (h3 : verify password2 u.password = false) :
    (AppController.login verify sign users email1 password1).result =
      .httpError "Invalid email or password" 401 ∧
    (AppController.login verify sign users email2 password2).result =
      .httpError "Invalid email or password" 401 ∧
    (AppController.login verify sign users email1 password1).state = users ∧
    (AppController.login verify sign users email2 password2).state = users := by
  simp [AppController.login, h1, h2, h3]

/-- Witness for C4: a nonexistent email and a wrong password on an existing
user. -/
theorem login_invalid_credentials_uniform_witness :
    UserService.findUser [⟨1, "a@x.com", "A", "h"⟩] "b@x.com" = none ∧
    (AppController.login (fun _ _ => false) (fun _ _ _ => "tok")
      [⟨1, "a@x.com", "A", "h"⟩] "b@x.com" "pw").result =
      .httpError "Invalid email or password" 401 := by
  refine ⟨by decide, ?_⟩
  exact (login_invalid_credentials_uniform (fun _ _ => false)
    (fun _ _ _ => "tok") [⟨1, "a@x.com", "A", "h"⟩] "b@x.com" "pw" "a@x.com"
    "pw" ⟨1, "a@x.com", "A", "h"⟩ (by decide) (by decide) rfl).1

/-- C5: `publishPost` fails with the PostNotFound error (404) when the id is
absent, leaving the state unchanged; when the post exists it resolves with the
post with `published := true`, persists it, and publishing again still
resolves with `published := true` — never an error. -/
theorem publish_idempotent_spec (posts0 : List Post) (id : Nat) :
    (PostService.post posts0 id = none →
      (AppController.publishPost posts0 id).result =
        .httpError "Post not found" 404 ∧
      (AppController.publishPost posts0 id).state = posts0) ∧
    (∀ p : Post, PostService.post posts0 id = some p →
      (AppController.publishPost posts0 id).result =
        .ok ⟨p.id, p.title, p.content, true, p.authorId⟩ ∧
      PostService.post (AppController.publishPost posts0 id).state id =
        some ⟨p.id, p.title, p.content, true, p.authorId⟩ ∧
      (AppController.publishPost
          (AppController.publishPost posts0 id).state id).result =
        .ok ⟨p.id, p.title, p.content, true, p.authorId⟩) := by
  constructor
  · intro h
    simp [AppController.publishPost, h]
  · intro p hp
    have hid : p.id = id := post_some_id posts0 id p hp
    have h1 := publishPost_of_some posts0 id p hp
    have h2 : PostService.post (AppController.publishPost posts0 id).state id =
        some ⟨p.id, p.title, p.content, true, p.authorId⟩ := by
      rw [h1]
      exact post_map_replace id ⟨p.id, p.title, p.content, true, p.authorId⟩
        hid posts0 p hp
    refine ⟨by rw [h1], h2, ?_⟩
    have h3 := publishPost_of_some _ id _ h2
    rw [h3]

/-- Witness for C5: publishing an existing draft. -/
theorem publish_idempotent_spec_witness :
    PostService.post [⟨1, "T", "C", false, 7⟩] 1 = some ⟨1, "T", "C", false, 7⟩ ∧
    (AppController.publishPost [⟨1, "T", "C", false, 7⟩] 1).result =
      .ok ⟨1, "T", "C", true, 7⟩ := by
  refine ⟨by decide, ?_⟩
  exact ((publish_idempotent_spec [⟨1, "T", "C", false, 7⟩] 1).2
    ⟨1, "T", "C", false, 7⟩ (by decide)).1

/-- C6: for an existing post, `updatePost` applies exactly the supplied body
fields — title and content become the supplied values when present and stay
unchanged when absent, while `published` and `authorId` are never touched —
and every other post is left as it was (the state is the pointwise
replacement at the target id only). -/
theorem update_frame_spec (posts0 : List Post) (id : Nat)
    (body : AppController.UpdatePostBody) (p : Post)
    (hp : PostService.post posts0 id = some p) :
    (AppController.updatePost posts0 id body).result =
      .ok (200, ⟨p.id, body.title.getD p.title, body.content.getD p.content,
        p.published, p.authorId⟩) ∧
    (AppController.updatePost posts0 id body).state =
      posts0.map (fun q =>
        if q.id == id then
          (⟨p.id, body.title.getD p.title, body.content.getD p.content,
            p.published, p.authorId⟩ : Post)
        else q) ∧
    PostService.post (AppController.updatePost posts0 id body).state id =
      some ⟨p.id, body.title.getD p.title, body.content.getD p.content,
        p.published, p.authorId⟩ := by
  have hid : p.id = id := post_some_id posts0 id p hp
  have h1 := updatePost_of_some posts0 id body p hp
  refine ⟨by rw [h1], by rw [h1], ?_⟩
  rw [h1]
  exact post_map_replace id
    ⟨p.id, body.title.getD p.title, body.content.getD p.content,
     p.published, p.authorId⟩ hid posts0 p hp

/-- Witness for C6: a title-only update leaves content, published, and
authorId unchanged. -/
theorem update_frame_spec_witness :
    PostService.post [⟨1, "T", "C", false, 7⟩] 1 = some ⟨1, "T", "C", false, 7⟩ ∧
    (AppController.updatePost [⟨1, "T", "C", false, 7⟩] 1 ⟨some "X", none⟩).result =
      .ok (200, ⟨1, "X", "C", false, 7⟩) := by
  refine ⟨by decide, ?_⟩
  exact (update_frame_spec [⟨1, "T", "C", false, 7⟩] 1 ⟨some "X", none⟩
    ⟨1, "T", "C", false, 7⟩ (by decide)).1

/-- C7: `deletePost` fails with the PostNotFound error (404) when the id is
absent, leaving the state unchanged; when the post exists it resolves with the
confirmation message and a subsequent `getPostById` on the same id fails with
the PostNotFound error (404). -/
theorem delete_then_get_spec (posts0 : List Post) (id : Nat) :
    (PostService.post posts0 id = none →
      (AppController.deletePost posts0 id).result =
        .httpError "Post not found" 404 ∧
      (AppController.deletePost posts0 id).state = posts0) ∧
    (∀ p : Post, PostService.post posts0 id = some p →
      (AppController.deletePost posts0 id).result =
        .ok (200, "Successfully deleted post with id " ++ toString id) ∧
      (AppController.getPostById (AppController.deletePost posts0 id).state
          id).result = .httpError "Post not found" 404) := by
  constructor
  · intro h
    simp [AppController.deletePost, h]
  · intro p hp
    have h1 := deletePost_of_some posts0 id p hp
    refine ⟨by rw [h1], ?_⟩
    rw [h1]
    simp [AppController.getPostById, post_filter_eq_none]

/-- Witness for C7: deleting an existing post, then reading it back. -/
theorem delete_then_get_spec_witness :
    PostService.post [⟨1, "T", "C", false, 7⟩] 1 = some ⟨1, "T", "C", false, 7⟩ ∧
    (AppController.getPostById
      (AppController.deletePost [⟨1, "T", "C", false, 7⟩] 1).state 1).result =
      .httpError "Post not found" 404 := by
  refine ⟨by decide, ?_⟩
  exact ((delete_then_get_spec [⟨1, "T", "C", false, 7⟩] 1).2
    ⟨1, "T", "C", false, 7⟩ (by decide)).2

/-- C8: when a search string is supplied, `getPosts` returns exactly the posts
whose title or content contains it, paginated by the supplied skip/take
offset/limit over the filtered list (for the empty search string the filter
is vacuous, matching every post); when no search string is supplied no content
filter is applied. -/
theorem list_search_pagination_spec (posts0 : List Post)
    (q : AppController.PostQueryParams) :
    (∀ s : String, q.searchString = some s →
      (AppController.getPosts posts0 q).result =
        .ok (paginate q.skip q.take (posts0.filter (claimMatches s)))) ∧
    (q.searchString = none →
      (AppController.getPosts posts0 q).result =
        .ok (paginate q.skip q.take posts0)) := by
  constructor
  · intro s hs
    by_cases hempty : s = ""
    · subst hempty
      have hfull : posts0.filter (claimMatches "") = posts0 :=
        List.filter_eq_self.mpr (fun a _ => by
          simp [claimMatches, strContains])
      simp [AppController.getPosts, AppController.searchFilter, hs,
        PostService.posts, paginate, hfull]
    · have hcongr : posts0.filter
          (fun p => strContains p.content s || strContains p.title s) =
          posts0.filter (claimMatches s) :=
        List.filter_congr (fun p _ => by simp [claimMatches, Bool.or_comm])
      simp [AppController.getPosts, AppController.searchFilter, hs, hempty,
        PostService.posts, paginate, hcongr]
  · intro hn
    simp [AppController.getPosts, AppController.searchFilter, hn,
      PostService.posts, paginate]

/-- Witness for C8: a search over two posts of which one matches. -/
theorem list_search_pagination_spec_witness :
    (⟨none, none, some "foo"⟩ : AppController.PostQueryParams).searchString =
      some "foo" ∧
    (AppController.getPosts
      [⟨1, "foo bar", "x", false, 1⟩, ⟨2, "baz", "qux", false, 1⟩]
      ⟨none, none, some "foo"⟩).result =
      .ok (paginate none none
        (([⟨1, "foo bar", "x", false, 1⟩, ⟨2, "baz", "qux", false, 1⟩] :
          List Post).filter (claimMatches "foo"))) := by
  refine ⟨rfl, ?_⟩
  exact (list_search_pagination_spec
    [⟨1, "foo bar", "x", false, 1⟩, ⟨2, "baz", "qux", false, 1⟩]
    ⟨none, none, some "foo"⟩).1 "foo" rfl

/-- C9: `createPostDraft` with an author email matching no user fails with the
AuthorNotFound error (404) and creates no post; with a resolvable author email
it succeeds and the created post starts with `published := false`. -/
theorem createDraft_author_resolution_spec (users : List User)
    (posts0 : List Post) (title content authorEmail : String) (freshId : Nat) :
    (UserService.findUser users authorEmail = none →
      (AppController.createPostDraft users posts0 title content authorEmail
        freshId).result = .httpError "Author not found" 404 ∧
      (AppController.createPostDraft users posts0 title content authorEmail
        freshId).state = posts0) ∧
    (∀ u : User, UserService.findUser users authorEmail = some u →
      (AppController.createPostDraft users posts0 title content authorEmail
        freshId).result = .ok (200, ⟨freshId, title, content, false, u.id⟩) ∧
      (AppController.createPostDraft users posts0 title content authorEmail
        freshId).state = posts0 ++ [⟨freshId, title, content, false, u.id⟩]) := by
  constructor
  · intro h
    simp [AppController.createPostDraft, AppController.createPostDraftWith,
      AppController.createDraftCatch, PostService.createPost, h]
  · intro u hu
    simp [AppController.createPostDraft, AppController.createPostDraftWith,
      PostService.createPost, hu]

/-- Witness for C9: an author email matching no user. -/
theorem createDraft_author_resolution_spec_witness :
    UserService.findUser [⟨1, "a@x.com", "A", "h"⟩] "b@x.com" = none ∧
    (AppController.createPostDraft [⟨1, "a@x.com", "A", "h"⟩] [] "T" "C"
      "b@x.com" 5).result = .httpError "Author not found" 404 := by
  refine ⟨by decide, ?_⟩
  exact ((createDraft_author_resolution_spec [⟨1, "a@x.com", "A", "h"⟩] [] "T"
    "C" "b@x.com" 5).1 (by decide)).1

/-- C10: when the repository write inside `createPostDraft` fails with any
error that is not the known Prisma error of code P2025, the catch block
swallows it — nothing is rethrown, the handler resolves to `undefined`, and
the post state is unchanged. -/
theorem createDraft_swallows_unexpected_errors (posts0 : List Post)
    (e : RepoError) (h : e.isP2025 = false) :
    AppController.createPostDraftWith (.error e) posts0 =
      (.resolvedUndefined, posts0) := by
  cases e with
  | known code =>
      simp [RepoError.isP2025] at h
      simp [AppController.createPostDraftWith, AppController.createDraftCatch, h]
  | unknown => rfl

/-- Witness for C10: a known Prisma error with code P2002 inside
`createPostDraft` is swallowed. -/
theorem createDraft_swallows_unexpected_errors_witness :
    RepoError.isP2025 (.known "P2002") = false ∧
    AppController.createPostDraftWith (.error (.known "P2002")) [] =
      (.resolvedUndefined, []) := by
  refine ⟨by decide, ?_⟩
  exact createDraft_swallows_unexpected_errors [] (.known "P2002") (by decide)

end AdminCrud
